import Mathlib

/-!
Verification of the chroma-key video compositing core (`src/src/App.tsx` and
its two evolutions `src/unnamed/part_000`, `src/unnamed/part_001`).

The embedding below models, over exact rational arithmetic:
  * the fragment-stage keying (`fragmentShaderSource`): per-pixel Euclidean
    RGB distance to a key color, hard binary cutoff at a threshold;
  * the render loop governor (`applyChromaKey`): a rate-limited tick that
    skips all GPU work when the elapsed time since `lastFrameTime` is below
    `frameInterval = 1000 / targetFPS`, and otherwise stamps the clock,
    uploads the current frame when fully decoded, and draws;
  * the frame readiness gate (`checkVideoReady`): a one-shot `canplay`
    listener that flips `isVideoReady` when `readyState >= 2` and then
    unsubscribes itself;
  * the `Video` component lifecycle: context acquisition (`useMemo` with
    `getContext("webgl")`), the render effect guarded by
    `!isVideoReady || !webGLContext`, and the cleanup closure
    (`cancelAnimationFrame` + `deleteProgram` + `deleteTexture`).
-/

/-! ### Fragment-stage keying (`fragmentShaderSource`) -/

/-- A GLSL `vec3` value, with exact rational components. -/
structure Vec3 where
  x : ℚ
  y : ℚ
  z : ℚ
deriving DecidableEq

/-- A GLSL `vec4` RGBA color, with exact rational components. -/
structure Vec4 where
  r : ℚ
  g : ℚ
  b : ℚ
  a : ℚ
deriving DecidableEq

/-- The `color.rgb` swizzle. -/
def Vec4.rgb (c : Vec4) : Vec3 := ⟨c.r, c.g, c.b⟩

/-- Componentwise `vec3` subtraction, as in `color.rgb - u_keyColor`. -/
def Vec3.sub (u v : Vec3) : Vec3 := ⟨u.x - v.x, u.y - v.y, u.z - v.z⟩

/-- The square of the GLSL `length` of a `vec3`.  The shader compares
`length(color.rgb - u_keyColor) < u_threshold`; over the rationals we keep
the square, and every theorem about the comparison goes through
`Real.sqrt` explicitly. -/
def Vec3.normSq (v : Vec3) : ℚ := v.x ^ 2 + v.y ^ 2 + v.z ^ 2

/-- The squared Euclidean RGB distance `length(color.rgb - u_keyColor)^2`
computed by the fragment shader. -/
def rgbDistSq (color : Vec4) (keyColor : Vec3) : ℚ :=
  (color.rgb.sub keyColor).normSq

/-- The GLSL single-argument constructor `vec4(v)`: all four components. -/
def Vec4.splat (v : ℚ) : Vec4 := ⟨v, v, v, v⟩

/-- Fragment stage of `src/src/App.tsx` (`fragmentShaderSource`, the
if/else formulation):

    float diff = length(color.rgb - u_keyColor);
    if (diff < u_threshold) \x7b gl_FragColor = vec4(0.0, 0.0, 0.0, 0.0); \x7d
    else \x7b gl_FragColor = color; \x7d

`length d < t` (with `length d = Real.sqrt (normSq d) ≥ 0`) holds exactly
when `0 ≤ t ∧ normSq d < t ^ 2`, which is the decidable rational guard used
here; the equivalence with the `Real.sqrt` comparison is proved in
`chromaKey_euclidean_cutoff`. -/
def chromaKeyFragment (color : Vec4) (keyColor : Vec3) (threshold : ℚ) : Vec4 :=
  if 0 ≤ threshold ∧ rgbDistSq color keyColor < threshold ^ 2 then
    ⟨0, 0, 0, 0⟩
  else
    color

/-- Fragment stage of `src/unnamed/part_000` and `src/unnamed/part_001`
(`fragmentShaderSource`, the ternary formulation):

    gl_FragColor = diff < u_threshold ? vec4(0.0) : color;

identical comparison, transparent branch written `vec4(0.0)`. -/
def chromaKeyFragmentTernary (color : Vec4) (keyColor : Vec3) (threshold : ℚ) : Vec4 :=
  if 0 ≤ threshold ∧ rgbDistSq color keyColor < threshold ^ 2 then
    Vec4.splat 0
  else
    color

/-- The hard-coded key color `gl.uniform3f(keyColorLocation, 3/255, 255/255, 156/255)`. -/
def appKeyColor : Vec3 := ⟨3 / 255, 255 / 255, 156 / 255⟩

/-- The hard-coded threshold `gl.uniform1f(thresholdLocation, 0.3)`. -/
def appThreshold : ℚ := 3 / 10

/-! ### Render loop governor (`applyChromaKey`) -/

/-- One scheduler tick as seen by `applyChromaKey`: the host timestamp, whether
`video.readyState === video.HAVE_ENOUGH_DATA` held at that tick, and the
video frame that `texImage2D` would upload (abstract, type `α`). -/
structure Tick (α : Type) where
  time : ℚ
  frameReady : Bool
  frame : α
deriving DecidableEq

/-- The governor's mutable state: the `lastFrameTime` clock and the contents
of the single reused `FrameTexture`. -/
structure GovState (α : Type) where
  lastFrameTime : ℚ
  texture : α
deriving DecidableEq

/-- `const frameInterval = 1000 / targetFPS`. -/
def frameInterval (targetFPS : ℚ) : ℚ := 1000 / targetFPS

/-- One execution of the body of `applyChromaKey` (App.tsx lines 162-199) on
state `s` at tick `tk`, for frame interval `I`.  Returns the new state and
whether this tick issued the GPU upload + draw.

  * `currentTime - lastFrameTime < frameInterval` → early return: state
    untouched, no draw;
  * otherwise `lastFrameTime = currentTime` unconditionally, and the
    texture upload + `drawArrays` happen only under the
    `HAVE_ENOUGH_DATA` check. -/
def govStep {α : Type} (I : ℚ) (s : GovState α) (tk : Tick α) : GovState α × Bool :=
  if tk.time - s.lastFrameTime < I then
    (s, false)
  else
    ({ lastFrameTime := tk.time,
       texture := if tk.frameReady then tk.frame else s.texture },
     tk.frameReady)

/-- The per-tick draw flags of a run of the governor over a tick list. -/
def govDraws {α : Type} (I : ℚ) (s : GovState α) : List (Tick α) → List Bool
  | [] => []
  | tk :: rest => (govStep I s tk).2 :: govDraws I (govStep I s tk).1 rest

/-- The final governor state after a run over a tick list. -/
def govRun {α : Type} (I : ℚ) (s : GovState α) : List (Tick α) → GovState α
  | [] => s
  | tk :: rest => govRun I (govStep I s tk).1 rest

/-- The initial governor state of the effect: `let lastFrameTime = 0`, with
whatever contents the fresh texture has. -/
def govInit {α : Type} (tex : α) : GovState α := ⟨0, tex⟩

example : govDraws (frameInterval 30) (govInit (0 : ℚ))
    [⟨0, true, 0⟩, ⟨10, true, 0⟩, ⟨20, true, 0⟩, ⟨40, true, 0⟩]
    = [false, false, false, true] := by
  norm_num [govDraws, govStep, govInit, frameInterval]

example : chromaKeyFragment ⟨3 / 255, 255 / 255, 156 / 255, 1⟩ appKeyColor appThreshold
    = ⟨0, 0, 0, 0⟩ := by
  norm_num [chromaKeyFragment, rgbDistSq, Vec4.rgb, Vec3.sub, Vec3.normSq,
    appKeyColor, appThreshold]

example : chromaKeyFragment ⟨0, 0, 0, 1⟩ appKeyColor appThreshold
    = ⟨0, 0, 0, 1⟩ := by
  norm_num [chromaKeyFragment, rgbDistSq, Vec4.rgb, Vec3.sub, Vec3.normSq,
    appKeyColor, appThreshold]

/-! ### Frame readiness gate (`checkVideoReady`, App.tsx lines 127-140) -/

/-- The readiness gate's state: the `isVideoReady` flag and whether the
`canplay` listener is still subscribed (`checkVideoReady` removes itself
once it fires successfully). -/
structure GateState where
  ready : Bool
  subscribed : Bool
deriving DecidableEq

/-- Gate state right after `video.addEventListener("canplay", checkVideoReady)`:
not ready, listener subscribed. -/
def gateInit : GateState := ⟨false, true⟩

/-- One `canplay` event carrying the media element's `readyState` at the
moment the handler runs:

    if (video.readyState >= 2) \x7b
      setIsVideoReady(true);
      video.removeEventListener("canplay", checkVideoReady);
    \x7d

If the listener has already unsubscribed the event does nothing; if
`readyState < 2` the handler runs but changes nothing. -/
def canplaySignal (readyState : ℕ) (s : GateState) : GateState :=
  if s.subscribed = true ∧ 2 ≤ readyState then ⟨true, false⟩ else s

/-- A run of the gate over a sequence of `canplay` events. -/
def gateRun (s : GateState) : List ℕ → GateState
  | [] => s
  | r :: rest => gateRun (canplaySignal r s) rest

/-- The number of NotReady→Ready transitions performed along a run. -/
def gateTransitions (s : GateState) : List ℕ → ℕ
  | [] => 0
  | r :: rest =>
    (if s.ready = false ∧ (canplaySignal r s).ready = true then 1 else 0)
      + gateTransitions (canplaySignal r s) rest

example : gateRun gateInit [1, 4, 4] = ⟨true, false⟩ := by decide

example : gateTransitions gateInit [1, 4, 4] = 1 := by decide

/-! ### `Video` component lifecycle (App.tsx lines 106-210) -/

/-- The record returned by `initWebGL` (App.tsx lines 97-103).  GPU handles
are abstracted as numbers; only the presence of the record (versus `null`)
matters to the lifecycle claims. -/
structure WebGLContext where
  program : ℕ
  texture : ℕ
  imageLocation : ℕ
  keyColorLocation : ℕ
  thresholdLocation : ℕ
deriving DecidableEq

/-- The concrete record built by a successful `initWebGL` call. -/
def initWebGLResult : WebGLContext := ⟨0, 0, 0, 1, 2⟩

/-- The `useMemo` initializer (App.tsx lines 112-125):

    if (canvasRef.current) \x7b
      const gl = canvasRef.current.getContext("webgl", ...);
      if (gl) \x7b ... return initWebGL(gl); \x7d
    \x7d
    return null;

`none` models the `null` result (the ConfigurationError case). -/
def webGLContextMemo (canvasPresent glAvailable : Bool) : Option WebGLContext :=
  if canvasPresent = true then
    if glAvailable = true then some initWebGLResult else none
  else none

/-- The markup the `Video` component returns: always the wrapper `div` with
the hidden `DailyVideo` element and the `canvas` overlay, independent of
whether WebGL initialization succeeded (App.tsx lines 212-243). -/
inductive ViewMarkup where
  | videoCanvas
deriving DecidableEq

/-- The component's render result as a function of the memoized context:
the JSX does not branch on it, so this is total and constant — the safe
fallback when initialization failed. -/
def videoRender (ctx : Option WebGLContext) : ViewMarkup :=
  match ctx with
  | some _ => ViewMarkup.videoCanvas
  | none => ViewMarkup.videoCanvas

/-- The asynchronous events the `Video` component observes, all delivered on
the single control thread. -/
inductive VEvent where
  | canplay (readyState : ℕ)
  | effectRun
  | tick (time : ℚ) (frameReady : Bool)
deriving DecidableEq

/-- The `Video` component's state: the readiness gate, whether the memoized
WebGL context is present, whether the render loop has been started by the
effect, the governor's `lastFrameTime` clock, and how many `drawArrays`
calls have been issued. -/
structure VState where
  gate : GateState
  ctxOk : Bool
  loopActive : Bool
  lastFrameTime : ℚ
  drawCount : ℕ
deriving DecidableEq

/-- Freshly mounted component: gate initial, loop not started, clock 0,
no draws; `ctxOk` records whether `webGLContextMemo` returned a context. -/
def vinit (ctxOk : Bool) : VState := ⟨gateInit, ctxOk, false, 0, 0⟩

/-- One event step of the `Video` component.

  * `canplay r`: runs `checkVideoReady` through the gate;
  * `effectRun`: the render effect (App.tsx lines 142-201).  The guard
    `if (!isVideoReady || !webGLContext) return;` keeps the loop off unless
    both hold; otherwise it starts the loop with `lastFrameTime = 0` — its
    immediate `applyChromaKey(0)` call is skipped by the rate check
    (`0 - 0 < frameInterval`), leaving exactly this state;
  * `tick t ready`: a scheduled `applyChromaKey(t)` callback, a no-op when
    the loop has not been started. -/
def vstep (s : VState) : VEvent → VState
  | .canplay r => { s with gate := canplaySignal r s.gate }
  | .effectRun =>
    if s.gate.ready = true ∧ s.ctxOk = true then
      { s with loopActive := true, lastFrameTime := 0 }
    else s
  | .tick t ready =>
    if s.loopActive = true then
      if t - s.lastFrameTime < frameInterval 30 then s
      else
        { s with lastFrameTime := t,
                 drawCount := s.drawCount + (if ready then 1 else 0) }
    else s

/-- A run of the `Video` component over an event sequence. -/
def vrun (s : VState) : List VEvent → VState
  | [] => s
  | e :: es => vrun (vstep s e) es

/-! ### Cancellation and disposal (the effect cleanup, App.tsx lines 203-209) -/

/-- The resources referenced by one started render loop instance: whether an
animation frame is scheduled, whether the GPU program/texture objects are
still alive, and how many times each has actually been released.  WebGL's
`deleteProgram` / `deleteTexture` silently do nothing on an already-deleted
object, which is what makes repeated cleanup calls harmless. -/
structure LoopRes where
  scheduled : Bool
  programAlive : Bool
  textureAlive : Bool
  programReleases : ℕ
  textureReleases : ℕ
deriving DecidableEq

/-- A render loop right after `start`: a tick scheduled, both GPU objects
alive, nothing released yet. -/
def startedLoop : LoopRes := ⟨true, true, true, 0, 0⟩

/-- The cleanup closure returned by the effect:

    cancelAnimationFrame(animationFrameId);
    if (gl && program && texture) \x7b
      gl.deleteProgram(program);
      gl.deleteTexture(texture);
    \x7d

The JS guard tests object references, which stay truthy after deletion, so
both deletes run on every call; each actually releases its object only the
first time (WebGL ignores deletes of deleted objects). -/
def cancelLoop (s : LoopRes) : LoopRes :=
  let s1 : LoopRes := { s with scheduled := false }
  let s2 : LoopRes :=
    if s1.programAlive = true then
      { s1 with programAlive := false, programReleases := s1.programReleases + 1 }
    else s1
  if s2.textureAlive = true then
    { s2 with textureAlive := false, textureReleases := s2.textureReleases + 1 }
  else s2

example : cancelLoop (cancelLoop startedLoop) = cancelLoop startedLoop := by decide

example : (cancelLoop startedLoop).programReleases = 1 := by decide

/-! ### Helper lemmas: fragment keying -/

lemma rgbDistSq_nonneg (c : Vec4) (k : Vec3) : 0 ≤ rgbDistSq c k := by
  unfold rgbDistSq Vec3.normSq
  positivity

/-! ### Claims about the fragment stage -/

/-- C1: for every sampled color `c`, key color `k` and threshold `t`, the
fragment stage emits fully transparent black when the Euclidean RGB distance
from `c` to `k` is strictly below `t`, emits `c` unchanged otherwise, and in
particular leaves a pixel at distance exactly `t` unchanged. -/
theorem chromaKey_euclidean_cutoff (c : Vec4) (k : Vec3) (t : ℚ) :
    (Real.sqrt ((rgbDistSq c k : ℚ) : ℝ) < (t : ℝ) →
      chromaKeyFragment c k t = ⟨0, 0, 0, 0⟩) ∧
    ((t : ℝ) ≤ Real.sqrt ((rgbDistSq c k : ℚ) : ℝ) →
      chromaKeyFragment c k t = c) ∧
    (Real.sqrt ((rgbDistSq c k : ℚ) : ℝ) = (t : ℝ) →
      chromaKeyFragment c k t = c) := by
  have hnn : (0 : ℚ) ≤ rgbDistSq c k := rgbDistSq_nonneg c k
  have hle : ∀ h : (t : ℝ) ≤ Real.sqrt ((rgbDistSq c k : ℚ) : ℝ),
      chromaKeyFragment c k t = c := by
    intro h
    unfold chromaKeyFragment
    rw [if_neg]
    rintro ⟨ht0, hlt⟩
    rcases eq_or_lt_of_le ht0 with h0 | h0
    · rw [← h0] at hlt
      norm_num at hlt
      exact absurd hlt (not_lt.mpr hnn)
    · have hs : Real.sqrt ((rgbDistSq c k : ℚ) : ℝ) < (t : ℝ) := by
        rw [Real.sqrt_lt' (by exact_mod_cast h0)]
        exact_mod_cast hlt
      exact absurd hs (not_lt.mpr h)
  refine ⟨?_, hle, fun h => hle (le_of_eq h.symm)⟩
  intro h
  have ht : (0 : ℝ) < (t : ℝ) := lt_of_le_of_lt (Real.sqrt_nonneg _) h
  have h2 : ((rgbDistSq c k : ℚ) : ℝ) < (t : ℝ) ^ 2 := (Real.sqrt_lt' ht).mp h
  unfold chromaKeyFragment
  rw [if_pos ⟨by exact_mod_cast ht.le, by exact_mod_cast h2⟩]

/-- Witness for C1: the key color itself (distance 0 < 0.3) is keyed out,
and a pixel at distance exactly 1 from key color (0,0,0) with threshold 1
passes through unchanged. -/
theorem chromaKey_euclidean_cutoff_witness :
    chromaKeyFragment ⟨3 / 255, 255 / 255, 156 / 255, 1⟩ appKeyColor appThreshold
      = ⟨0, 0, 0, 0⟩ ∧
    chromaKeyFragment ⟨1, 0, 0, 1⟩ ⟨0, 0, 0⟩ 1 = ⟨1, 0, 0, 1⟩ := by
  constructor
  · refine (chromaKey_euclidean_cutoff ⟨3 / 255, 255 / 255, 156 / 255, 1⟩
      appKeyColor appThreshold).1 ?_
    have h0 : rgbDistSq ⟨3 / 255, 255 / 255, 156 / 255, 1⟩ appKeyColor = 0 := by
      norm_num [rgbDistSq, Vec4.rgb, Vec3.sub, Vec3.normSq, appKeyColor]
    rw [h0]
    norm_num [Real.sqrt_zero, appThreshold]
  · refine (chromaKey_euclidean_cutoff ⟨1, 0, 0, 1⟩ ⟨0, 0, 0⟩ 1).2.2 ?_
    have h1 : rgbDistSq ⟨1, 0, 0, 1⟩ ⟨0, 0, 0⟩ = 1 := by
      norm_num [rgbDistSq, Vec4.rgb, Vec3.sub, Vec3.normSq]
    rw [h1]
    norm_num [Real.sqrt_one]

/-- C2: with key color (3/255, 255/255, 156/255) and threshold 0.3, the key
color itself maps to the fully transparent pixel (alpha 0), and opaque black
passes through unchanged, over exact rational arithmetic. -/
theorem chromaKey_scenario_values :
    chromaKeyFragment ⟨3 / 255, 255 / 255, 156 / 255, 1⟩ appKeyColor appThreshold
      = ⟨0, 0, 0, 0⟩ ∧
    chromaKeyFragment ⟨0, 0, 0, 1⟩ appKeyColor appThreshold = ⟨0, 0, 0, 1⟩ := by
  constructor <;>
    norm_num [chromaKeyFragment, rgbDistSq, Vec4.rgb, Vec3.sub, Vec3.normSq,
      appKeyColor, appThreshold]

/-- C10: the if/else formulation (App.tsx, transparent branch written
`vec4(0.0, 0.0, 0.0, 0.0)`) and the ternary formulation (part_000/part_001,
transparent branch written `vec4(0.0)`) are extensionally equal. -/
theorem fragment_formulations_equal (c : Vec4) (k : Vec3) (t : ℚ) :
    chromaKeyFragment c k t = chromaKeyFragmentTernary c k t := by
  unfold chromaKeyFragment chromaKeyFragmentTernary Vec4.splat
  rfl

/-! ### Helper lemmas: render loop governor -/

lemma govStep_skip {α : Type} (I : ℚ) (s : GovState α) (tk : Tick α)
    (h : tk.time - s.lastFrameTime < I) : govStep I s tk = (s, false) := by
  unfold govStep
  rw [if_pos h]

lemma govStep_drew_accept {α : Type} {I : ℚ} {s : GovState α} {tk : Tick α}
    (h : (govStep I s tk).2 = true) : I ≤ tk.time - s.lastFrameTime := by
  by_cases hc : tk.time - s.lastFrameTime < I
  · rw [govStep_skip I s tk hc] at h
    exact Bool.noConfusion h
  · exact not_lt.mp hc

lemma govStep_accept_last {α : Type} {I : ℚ} {s : GovState α} {tk : Tick α}
    (h : ¬ (tk.time - s.lastFrameTime < I)) :
    (govStep I s tk).1.lastFrameTime = tk.time := by
  unfold govStep
  rw [if_neg h]

lemma govStep_last_le {α : Type} {I : ℚ} (hI : 0 < I) (s : GovState α) (tk : Tick α) :
    s.lastFrameTime ≤ (govStep I s tk).1.lastFrameTime := by
  by_cases hc : tk.time - s.lastFrameTime < I
  · rw [govStep_skip I s tk hc]
  · rw [govStep_accept_last hc]
    have := not_lt.mp hc
    linarith

lemma govDraws_true_time_lb {α : Type} (I : ℚ) (hI : 0 < I) :
    ∀ (ticks : List (Tick α)) (s : GovState α) (j : ℕ) (tk : Tick α),
      ticks[j]? = some tk → (govDraws I s ticks)[j]? = some true →
      s.lastFrameTime + I ≤ tk.time
  | [], _, j, tk, htk, _ => by simp at htk
  | hd :: tl, s, 0, tk, htk, hdr => by
    simp only [List.getElem?_cons_zero, Option.some_inj] at htk
    subst htk
    simp only [govDraws, List.getElem?_cons_zero, Option.some_inj] at hdr
    have := govStep_drew_accept hdr
    linarith
  | hd :: tl, s, j + 1, tk, htk, hdr => by
    simp only [List.getElem?_cons_succ] at htk
    simp only [govDraws, List.getElem?_cons_succ] at hdr
    have h1 := govDraws_true_time_lb I hI tl (govStep I s hd).1 j tk htk hdr
    have h2 := govStep_last_le hI s hd
    linarith

lemma govDraws_two_true {α : Type} (I : ℚ) (hI : 0 < I) :
    ∀ (ticks : List (Tick α)) (s : GovState α) (i j : ℕ) (tki tkj : Tick α),
      i < j → ticks[i]? = some tki → ticks[j]? = some tkj →
      (govDraws I s ticks)[i]? = some true → (govDraws I s ticks)[j]? = some true →
      tki.time + I ≤ tkj.time
  | [], _, i, _, _, _, _, hi, _, _, _ => by simp at hi
  | hd :: tl, s, 0, j, tki, tkj, hij, hi, hj, hdi, hdj => by
    simp only [List.getElem?_cons_zero, Option.some_inj] at hi
    subst hi
    obtain ⟨j', rfl⟩ : ∃ j', j = j' + 1 := ⟨j - 1, by omega⟩
    simp only [List.getElem?_cons_succ] at hj
    simp only [govDraws, List.getElem?_cons_zero, List.getElem?_cons_succ,
      Option.some_inj] at hdi hdj
    have hacc : ¬ (hd.time - s.lastFrameTime < I) :=
      not_lt.mpr (govStep_drew_accept hdi)
    have hlast := govStep_accept_last hacc
    have hlb := govDraws_true_time_lb I hI tl (govStep I s hd).1 j' tkj hj hdj
    rw [hlast] at hlb
    exact hlb
  | hd :: tl, s, i + 1, j, tki, tkj, hij, hi, hj, hdi, hdj => by
    obtain ⟨j', rfl⟩ : ∃ j', j = j' + 1 := ⟨j - 1, by omega⟩
    simp only [List.getElem?_cons_succ] at hi hj
    simp only [govDraws, List.getElem?_cons_succ] at hdi hdj
    exact govDraws_two_true I hI tl (govStep I s hd).1 i j' tki tkj
      (by omega) hi hj hdi hdj

/-! ### Claims about the render loop governor -/

/-- C3 counterexample: with `targetFPS = 30`, the initial clock state
(`lastFrameTime = 0`) and ticks at 0, 10, 20, 40 with a decoded frame always
available, the draw flags are not `[true, false, false, true]` — the tick at
timestamp 0 computes elapsed time 0 < 1000/30 and is skipped by the rate
check, so no draw occurs there. -/
theorem governor_scenario_cex :
    ¬ (govDraws (frameInterval 30) (govInit (0 : ℚ))
        [⟨0, true, 0⟩, ⟨10, true, 0⟩, ⟨20, true, 0⟩, ⟨40, true, 0⟩]
        = [true, false, false, true]) := by
  norm_num [govDraws, govStep, govInit, frameInterval]

/-- C3 amended: with `targetFPS = 30`, from the initial clock state and ticks
at timestamps 0, 10, 20, 40 with a fully decoded frame always available, the
GPU upload + draw occurs at exactly the tick with timestamp 40 and at no
other tick (the tick at 0 is skipped because the clock starts at 0, so its
elapsed time is 0 < 1000/30). -/
theorem governor_scenario_draws :
    govDraws (frameInterval 30) (govInit (0 : ℚ))
      [⟨0, true, 0⟩, ⟨10, true, 0⟩, ⟨20, true, 0⟩, ⟨40, true, 0⟩]
      = [false, false, false, true] := by
  norm_num [govDraws, govStep, govInit, frameInterval]

/-- C4: in any run of the governor, two ticks whose timestamps are spaced
less than the frame interval apart cannot both perform the GPU upload + draw
(so of any pairwise-close set of ticks at most one draws), and every tick
skipped by the rate check leaves the whole governor state — FrameTexture
contents and FrameClock — unchanged and draws nothing. -/
theorem governor_rate_limit {α : Type} (I : ℚ) (init : GovState α)
    (ticks : List (Tick α)) (i j : ℕ) (tki tkj : Tick α)
    (hij : i < j) (hi : ticks[i]? = some tki) (hj : ticks[j]? = some tkj)
    (hsp : |tki.time - tkj.time| < I) :
    ¬ ((govDraws I init ticks)[i]? = some true ∧
       (govDraws I init ticks)[j]? = some true) ∧
    ∀ (s : GovState α) (tk : Tick α), tk.time - s.lastFrameTime < I →
      govStep I s tk = (s, false) := by
  refine ⟨?_, fun s tk h => govStep_skip I s tk h⟩
  rintro ⟨hdi, hdj⟩
  have hI : 0 < I := lt_of_le_of_lt (abs_nonneg _) hsp
  have h2 := govDraws_two_true I hI ticks init i j tki tkj hij hi hj hdi hdj
  have h3 : I ≤ |tki.time - tkj.time| := by
    rw [abs_sub_comm]
    calc I ≤ tkj.time - tki.time := by linarith
    _ ≤ |tkj.time - tki.time| := le_abs_self _
  linarith

/-- Witness for C4: ticks at 40 and 50 (spaced 10 ms < 100/3 ms) from clock 0
cannot both draw. -/
theorem governor_rate_limit_witness :
    ¬ ((govDraws (100 / 3) (⟨0, 0⟩ : GovState ℚ)
          [⟨40, true, 1⟩, ⟨50, true, 2⟩])[0]? = some true ∧
       (govDraws (100 / 3) (⟨0, 0⟩ : GovState ℚ)
          [⟨40, true, 1⟩, ⟨50, true, 2⟩])[1]? = some true) :=
  (governor_rate_limit (100 / 3) ⟨0, 0⟩ [⟨40, true, 1⟩, ⟨50, true, 2⟩]
    0 1 ⟨40, true, 1⟩ ⟨50, true, 2⟩ (by norm_num) rfl rfl
    (by rw [show |((⟨40, true, 1⟩ : Tick ℚ).time - (⟨50, true, 2⟩ : Tick ℚ).time)|
          = |((40 : ℚ) - 50)| from rfl, abs_lt]
        constructor <;> norm_num)).1

/-- C5 counterexample: a tick at timestamp 40 from clock 0 with no fully
decoded frame available performs no upload + draw, yet the governor's stored
timestamp is updated to 40 — contradicting "updated only on ticks that
upload and draw a frame". -/
theorem governor_clock_cex :
    (govStep (frameInterval 30) (⟨0, 5⟩ : GovState ℚ) ⟨40, false, 7⟩).2 = false ∧
    (govStep (frameInterval 30) (⟨0, 5⟩ : GovState ℚ)
      ⟨40, false, 7⟩).1.lastFrameTime = 40 := by
  norm_num [govStep, frameInterval]

/-- C5 amended: the elapsed time the governor compares against the frame
interval is the time since the last tick that passed the rate check (not
since the last drawn frame): the stored timestamp is left unchanged by
rate-skipped ticks and is updated to the tick's timestamp on every tick that
passes the rate check, whether or not the frame source had a fully decoded
frame. -/
theorem governor_clock_update {α : Type} (I : ℚ) (s : GovState α) (tk : Tick α) :
    (govStep I s tk).1.lastFrameTime =
      if tk.time - s.lastFrameTime < I then s.lastFrameTime else tk.time := by
  unfold govStep
  by_cases h : tk.time - s.lastFrameTime < I
  · rw [if_pos h, if_pos h]
  · rw [if_neg h, if_neg h]

/-! ### Helper lemmas: readiness gate -/

lemma canplaySignal_fixed (r : ℕ) (s : GateState) (h : s.subscribed = false) :
    canplaySignal r s = s := by
  unfold canplaySignal
  rw [if_neg]
  rintro ⟨h1, _⟩
  rw [h] at h1
  exact Bool.noConfusion h1

lemma gateRun_fixed (l : List ℕ) (s : GateState) (h : s.subscribed = false) :
    gateRun s l = s := by
  induction l with
  | nil => rfl
  | cons r rest ih =>
    show gateRun (canplaySignal r s) rest = s
    rw [canplaySignal_fixed r s h]
    exact ih

lemma gateTransitions_fixed (l : List ℕ) (s : GateState) (h : s.subscribed = false) :
    gateTransitions s l = 0 := by
  induction l with
  | nil => rfl
  | cons r rest ih =>
    show (if s.ready = false ∧ (canplaySignal r s).ready = true then 1 else 0)
        + gateTransitions (canplaySignal r s) rest = 0
    rw [canplaySignal_fixed r s h, ih]
    have hno : ¬ (s.ready = false ∧ s.ready = true) := by
      rintro ⟨h1, h2⟩
      rw [h1] at h2
      exact Bool.noConfusion h2
    rw [if_neg hno]

lemma gateRun_ready_unsubscribed (l : List ℕ) :
    ∀ s : GateState, (s.ready = true → s.subscribed = false) →
      (gateRun s l).ready = true → (gateRun s l).subscribed = false := by
  induction l with
  | nil => intro s h; exact h
  | cons r rest ih =>
    intro s h
    refine ih (canplaySignal r s) ?_
    intro hr
    unfold canplaySignal at hr ⊢
    by_cases hc : s.subscribed = true ∧ 2 ≤ r
    · rw [if_pos hc]
    · rw [if_neg hc] at hr ⊢
      exact h hr

lemma gateTransitions_le_one_aux (l : List ℕ) :
    ∀ s : GateState, (s.ready = true → s.subscribed = false) →
      gateTransitions s l ≤ 1 := by
  induction l with
  | nil => intro s _; exact Nat.zero_le 1
  | cons r rest ih =>
    intro s h
    show (if s.ready = false ∧ (canplaySignal r s).ready = true then 1 else 0)
        + gateTransitions (canplaySignal r s) rest ≤ 1
    by_cases hc : s.subscribed = true ∧ 2 ≤ r
    · have hsig : canplaySignal r s = ⟨true, false⟩ := by
        unfold canplaySignal
        rw [if_pos hc]
      rw [hsig, gateTransitions_fixed rest ⟨true, false⟩ rfl]
      split
      · omega
      · omega
    · have hsig : canplaySignal r s = s := by
        unfold canplaySignal
        rw [if_neg hc]
      rw [hsig]
      have hno : ¬ (s.ready = false ∧ s.ready = true) := by
        rintro ⟨h1, h2⟩
        rw [h1] at h2
        exact Bool.noConfusion h2
      rw [if_neg hno]
      have := ih s h
      omega

lemma gateRun_append (l1 l2 : List ℕ) (s : GateState) :
    gateRun s (l1 ++ l2) = gateRun (gateRun s l1) l2 := by
  induction l1 generalizing s with
  | nil => rfl
  | cons r rest ih =>
    show gateRun (canplaySignal r s) (rest ++ l2)
        = gateRun (gateRun (canplaySignal r s) rest) l2
    exact ih (canplaySignal r s)

/-! ### Claim about the readiness gate -/

/-- C6: from a fresh gate, any sequence of `canplay` signals causes at most
one NotReady→Ready transition, and once the gate is Ready every further
signal sequence is a no-op (the state never changes again, so it never
regresses to NotReady). -/
theorem readiness_gate_one_shot (sigs more : List ℕ) :
    gateTransitions gateInit sigs ≤ 1 ∧
    ((gateRun gateInit sigs).ready = true →
      gateRun gateInit (sigs ++ more) = gateRun gateInit sigs) := by
  have hinit : gateInit.ready = true → gateInit.subscribed = false := by
    intro h
    exact Bool.noConfusion h
  constructor
  · exact gateTransitions_le_one_aux sigs gateInit hinit
  · intro hr
    rw [gateRun_append]
    exact gateRun_fixed more (gateRun gateInit sigs)
      (gateRun_ready_unsubscribed sigs gateInit hinit hr)

/-- Witness for C6: signals with `readyState` 2 then 3 — one transition,
and a further signal after Ready changes nothing. -/
theorem readiness_gate_one_shot_witness :
    gateTransitions gateInit [2, 3] ≤ 1 ∧
    gateRun gateInit ([2, 3] ++ [4]) = gateRun gateInit [2, 3] :=
  ⟨(readiness_gate_one_shot [2, 3] [4]).1,
   (readiness_gate_one_shot [2, 3] [4]).2 (by decide)⟩

/-! ### Helper lemmas: `Video` component lifecycle -/

lemma canplaySignal_ready_mono (r : ℕ) (s : GateState) (h : s.ready = true) :
    (canplaySignal r s).ready = true := by
  unfold canplaySignal
  by_cases hc : s.subscribed = true ∧ 2 ≤ r
  · rw [if_pos hc]
  · rw [if_neg hc]
    exact h

lemma vstep_inv (s : VState) (e : VEvent)
    (h1 : s.loopActive = true → s.gate.ready = true)
    (h2 : s.gate.ready = false → s.drawCount = 0) :
    ((vstep s e).loopActive = true → (vstep s e).gate.ready = true) ∧
    ((vstep s e).gate.ready = false → (vstep s e).drawCount = 0) := by
  cases e with
  | canplay r =>
    constructor
    · intro hl
      exact canplaySignal_ready_mono r s.gate (h1 hl)
    · intro hr
      have hr' : (canplaySignal r s.gate).ready = false := hr
      apply h2
      cases hb : s.gate.ready with
      | false => rfl
      | true =>
        rw [canplaySignal_ready_mono r s.gate hb] at hr'
        exact Bool.noConfusion hr'
  | effectRun =>
    simp only [vstep]
    by_cases hc : s.gate.ready = true ∧ s.ctxOk = true
    · rw [if_pos hc]
      refine ⟨fun _ => hc.1, fun hr => ?_⟩
      rw [hc.1] at hr
      exact Bool.noConfusion hr
    · rw [if_neg hc]
      exact ⟨h1, h2⟩
  | tick t ready =>
    simp only [vstep]
    by_cases hl : s.loopActive = true
    · rw [if_pos hl]
      by_cases hrate : t - s.lastFrameTime < frameInterval 30
      · rw [if_pos hrate]
        exact ⟨h1, h2⟩
      · rw [if_neg hrate]
        refine ⟨fun _ => h1 hl, fun hr => ?_⟩
        rw [h1 hl] at hr
        exact Bool.noConfusion hr
    · rw [if_neg hl]
      exact ⟨h1, h2⟩

lemma vrun_inv (evs : List VEvent) :
    ∀ s : VState, (s.loopActive = true → s.gate.ready = true) →
      (s.gate.ready = false → s.drawCount = 0) →
      ((vrun s evs).loopActive = true → (vrun s evs).gate.ready = true) ∧
      ((vrun s evs).gate.ready = false → (vrun s evs).drawCount = 0) := by
  induction evs with
  | nil => intro s h1 h2; exact ⟨h1, h2⟩
  | cons e rest ih =>
    intro s h1 h2
    obtain ⟨g1, g2⟩ := vstep_inv s e h1 h2
    exact ih (vstep s e) g1 g2

lemma vstep_draw_needs_loop (s : VState) (e : VEvent)
    (h : s.drawCount < (vstep s e).drawCount) : s.loopActive = true := by
  cases e with
  | canplay r => exact absurd h (lt_irrefl _)
  | effectRun =>
    simp only [vstep] at h
    by_cases hc : s.gate.ready = true ∧ s.ctxOk = true
    · rw [if_pos hc] at h
      exact absurd h (lt_irrefl _)
    · rw [if_neg hc] at h
      exact absurd h (lt_irrefl _)
  | tick t ready =>
    by_cases hl : s.loopActive = true
    · exact hl
    · simp only [vstep] at h
      rw [if_neg hl] at h
      exact absurd h (lt_irrefl _)

lemma vstep_ctx_false (s : VState) (e : VEvent)
    (h1 : s.ctxOk = false) (h2 : s.loopActive = false) :
    (vstep s e).ctxOk = false ∧ (vstep s e).loopActive = false ∧
    (vstep s e).drawCount = s.drawCount := by
  cases e with
  | canplay r => exact ⟨h1, h2, rfl⟩
  | effectRun =>
    simp only [vstep]
    rw [if_neg]
    · exact ⟨h1, h2, rfl⟩
    · rintro ⟨_, hc⟩
      rw [h1] at hc
      exact Bool.noConfusion hc
  | tick t ready =>
    simp only [vstep]
    rw [if_neg]
    · exact ⟨h1, h2, rfl⟩
    · rw [h2]
      exact Bool.noConfusion

lemma vrun_ctx_false (evs : List VEvent) :
    ∀ s : VState, s.ctxOk = false → s.loopActive = false → s.drawCount = 0 →
      (vrun s evs).loopActive = false ∧ (vrun s evs).drawCount = 0 := by
  induction evs with
  | nil => intro s _ h2 h3; exact ⟨h2, h3⟩
  | cons e rest ih =>
    intro s h1 h2 h3
    obtain ⟨g1, g2, g3⟩ := vstep_ctx_false s e h1 h2
    exact ih (vstep s e) g1 g2 (g3.trans h3)

/-! ### Claims about the `Video` component lifecycle -/

/-- C7: in any execution of the `Video` component, as long as the readiness
gate has not transitioned to Ready the render loop has issued zero draw
calls, and any event that increases the draw count can only occur when the
gate is already Ready — the readiness transition strictly precedes the first
drawing tick. -/
theorem no_draw_before_ready (ctxOk : Bool) (evs : List VEvent) :
    ((vrun (vinit ctxOk) evs).gate.ready = false →
      (vrun (vinit ctxOk) evs).drawCount = 0) ∧
    (∀ e : VEvent,
      (vrun (vinit ctxOk) evs).drawCount < (vstep (vrun (vinit ctxOk) evs) e).drawCount →
      (vrun (vinit ctxOk) evs).gate.ready = true) := by
  have hinv := vrun_inv evs (vinit ctxOk)
    (fun h => Bool.noConfusion h) (fun _ => rfl)
  refine ⟨hinv.2, ?_⟩
  intro e he
  exact hinv.1 (vstep_draw_needs_loop _ e he)

/-- Witness for C7: a `canplay` event below the readiness level followed by a
scheduler tick leaves the gate NotReady and the draw count at zero. -/
theorem no_draw_before_ready_witness :
    (vrun (vinit true) [VEvent.canplay 1, VEvent.tick 50 true]).drawCount = 0 :=
  (no_draw_before_ready true [VEvent.canplay 1, VEvent.tick 50 true]).1 (by decide)

/-- C9: when the surface yields no GPU context, the `useMemo` initializer
returns `none` (the ConfigurationError result) instead of crashing, the
component still renders its markup (the safe fallback), and in every
subsequent execution the render loop is never started and no draw call is
ever issued. -/
theorem config_error_safe_fallback (canvasPresent : Bool) (evs : List VEvent) :
    webGLContextMemo canvasPresent false = none ∧
    videoRender (webGLContextMemo canvasPresent false) = ViewMarkup.videoCanvas ∧
    (vrun (vinit (webGLContextMemo canvasPresent false).isSome) evs).loopActive = false ∧
    (vrun (vinit (webGLContextMemo canvasPresent false).isSome) evs).drawCount = 0 := by
  have hnone : webGLContextMemo canvasPresent false = none := by
    unfold webGLContextMemo
    cases canvasPresent with
    | false => rfl
    | true =>
      rw [if_pos rfl, if_neg]
      exact Bool.noConfusion
  rw [hnone]
  have hrun := vrun_ctx_false evs (vinit false) rfl rfl rfl
  exact ⟨rfl, rfl, hrun.1, hrun.2⟩

/-! ### Helper lemmas: cancellation and disposal -/

lemma cancelLoop_eval (s : LoopRes) :
    cancelLoop s =
      ⟨false, false, false,
        s.programReleases + (if s.programAlive = true then 1 else 0),
        s.textureReleases + (if s.textureAlive = true then 1 else 0)⟩ := by
  unfold cancelLoop
  by_cases hp : s.programAlive = true <;> by_cases ht : s.textureAlive = true <;>
    simp [hp, ht]

lemma cancelLoop_idem (s : LoopRes) : cancelLoop (cancelLoop s) = cancelLoop s := by
  rw [cancelLoop_eval s, cancelLoop_eval]
  simp

/-! ### Claim about cancellation -/

/-- C8: for a started render loop, calling the cleanup closure `n ≥ 1` times
leaves exactly the state of a single call — no scheduled tick remains, and
the GPU program and texture are each actually released exactly once (the
second and later calls are no-ops, not errors). -/
theorem cancel_idempotent_dispose_once (n : ℕ) (hn : 1 ≤ n) :
    cancelLoop^[n] startedLoop = cancelLoop startedLoop ∧
    (cancelLoop^[n] startedLoop).scheduled = false ∧
    (cancelLoop^[n] startedLoop).programReleases = 1 ∧
    (cancelLoop^[n] startedLoop).textureReleases = 1 := by
  have hiter : ∀ m : ℕ, cancelLoop^[m + 1] startedLoop = cancelLoop startedLoop := by
    intro m
    induction m with
    | zero => rfl
    | succ k ih =>
      rw [Function.iterate_succ_apply', ih, cancelLoop_idem]
  obtain ⟨m, rfl⟩ : ∃ m, n = m + 1 := ⟨n - 1, by omega⟩
  refine ⟨hiter m, ?_, ?_, ?_⟩ <;> rw [hiter m] <;> decide

/-- Witness for C8: two cancellations behave exactly like one, with a single
release of each GPU object. -/
theorem cancel_idempotent_dispose_once_witness :
    cancelLoop^[2] startedLoop = cancelLoop startedLoop ∧
    (cancelLoop^[2] startedLoop).scheduled = false ∧
    (cancelLoop^[2] startedLoop).programReleases = 1 ∧
    (cancelLoop^[2] startedLoop).textureReleases = 1 :=
  cancel_idempotent_dispose_once 2 (by omega)
